import Mathlib

/-!
Verification of the business-marketplace backend (src/backend/server.py).

This file gives a shallow embedding of the data model and the request
handlers of server.py that the specification talks about, and proves (or
refutes) the specified properties against that embedding.

Modelling conventions:
* datetimes are natural numbers (a point on a global clock);
* Python float fields (revenue, prices, ...) are opaque pass-through values
  for the core logic and are modelled as integers;
* the Mongo collection business_listings is a list of listings; find_one
  is List.find? (first match), update_one mutates the first match,
  insert_one appends;
* handlers return a pair of the resulting database and an Except value:
  the database component equals the input database whenever the handler
  raises, because in the source every HTTPException is raised before any
  write is issued;
* randomness (the simulated payment roll), freshly generated uuids and
  tokens, and the current time enter each handler as explicit arguments;
* the fire-and-forget email notifier is modelled as an outbox list on the
  database state.
-/

namespace Bmarket

/-- Embedding of the BusinessStatus enum of server.py. -/
inductive BusinessStatus where
  | draft
  | pending_email_verification
  | pending_payment
  | active
  | pending
  | sold
  | withdrawn
  deriving DecidableEq

/-- Embedding of the UserRole enum of server.py. -/
inductive UserRole where
  | buyer
  | seller
  deriving DecidableEq

/-- Embedding of the SubscriptionStatus enum of server.py. -/
inductive SubscriptionStatus where
  | active
  | expired
  | pending
  deriving DecidableEq

/-- Embedding of the IndustryType enum of server.py. -/
inductive IndustryType where
  | manufacturing
  | retail
  | food_service
  | technology
  | agriculture
  | construction
  | healthcare
  | education
  | finance
  | transportation
  deriving DecidableEq

/-- Embedding of the RegionType enum of server.py. -/
inductive RegionType where
  | chisinau
  | balti
  | tiraspol
  | cahul
  | ungheni
  | soroca
  | orhei
  | comrat
  deriving DecidableEq

/-- Embedding of the RiskGrade enum of server.py. -/
inductive RiskGrade where
  | A
  | B
  | C
  | D
  | E
  deriving DecidableEq

/-- Embedding of the FinancialData model of server.py (floats as integers). -/
structure FinancialData where
  year : Int
  revenue : Int
  profit_loss : Int
  ebitda : Int
  assets : Int
  liabilities : Int
  cash_flow : Int
  deriving DecidableEq

/-- Embedding of the free-form key_metrics dict of server.py: an opaque
JSON object passed through unchanged, modelled as key-value pairs. -/
abbrev KeyMetrics := List (String × String)

/-- Embedding of the BusinessDocument model of server.py.  The file_data
field holds a base64 text in the source; base64 encoding is an external
bijection, so the field is modelled by the byte content it encodes. -/
structure BusinessDocument where
  id : String
  filename : String
  original_filename : String
  file_size : Nat
  content_type : String
  uploaded_at : Nat
  file_data : List Nat
  deriving DecidableEq

/-- Embedding of the UserResponse model of server.py (the resolved caller
identity handed to handlers by the auth dependencies). -/
structure UserResponse where
  id : String
  email : String
  name : String
  role : UserRole
  is_email_verified : Bool
  subscription_status : Option SubscriptionStatus
  subscription_expires_at : Option Nat
  deriving DecidableEq

/-- Embedding of the BusinessListing model of server.py. -/
structure BusinessListing where
  id : String
  title : String
  description : String
  industry : IndustryType
  region : RegionType
  annual_revenue : Int
  ebitda : Int
  asking_price : Int
  risk_grade : RiskGrade
  status : BusinessStatus
  seller_id : String
  seller_name : String
  seller_email : String
  reason_for_sale : String
  growth_opportunities : String
  financial_data : List FinancialData
  key_metrics : KeyMetrics
  documents : List BusinessDocument
  created_at : Nat
  updated_at : Nat
  views : Nat
  inquiries : Nat
  featured : Bool
  email_verification_token : Option String
  deriving DecidableEq

/-- Embedding of the BusinessListingCreate request model of server.py.
The client may supply documents and a status; server.py line 262 gives the
status field the default draft. -/
structure BusinessListingCreate where
  title : String
  description : String
  industry : IndustryType
  region : RegionType
  annual_revenue : Int
  ebitda : Int
  asking_price : Int
  risk_grade : RiskGrade
  seller_name : String
  seller_email : String
  reason_for_sale : String
  growth_opportunities : String
  financial_data : List FinancialData
  key_metrics : KeyMetrics
  documents : List BusinessDocument := []
  status : BusinessStatus := BusinessStatus.draft
  deriving DecidableEq

/-- Embedding of the BusinessListingUpdate request model of server.py:
every field optional, a missing field meaning do not touch it. -/
structure BusinessListingUpdate where
  title : Option String := none
  description : Option String := none
  industry : Option IndustryType := none
  region : Option RegionType := none
  annual_revenue : Option Int := none
  ebitda : Option Int := none
  asking_price : Option Int := none
  risk_grade : Option RiskGrade := none
  seller_name : Option String := none
  seller_email : Option String := none
  reason_for_sale : Option String := none
  growth_opportunities : Option String := none
  financial_data : Option (List FinancialData) := none
  key_metrics : Option KeyMetrics := none
  documents : Option (List BusinessDocument) := none
  status : Option BusinessStatus := none
  deriving DecidableEq

/-- Embedding of the PaymentRequest model of server.py. -/
structure PaymentRequest where
  business_id : String
  payment_type : String := "listing_fee"
  amount : Int := 99
  deriving DecidableEq

/-- Embedding of the PaymentResponse model of server.py. -/
structure PaymentResponse where
  payment_id : String
  status : String
  business_id : String
  amount : Int
  message : String
  deriving DecidableEq

/-- Embedding of the response model named BusinessListingResponse that is
IN EFFECT at every use site.  server.py defines a class of this name twice
(lines 300 and 341); Python rebinds the name, so the later definition at
lines 341-360 shadows the earlier one everywhere the handlers run.  The
later definition declares NO seller_email, seller_phone or documents
field, which is why none of those fields appear here. -/
structure BusinessListingResponse where
  id : String
  title : String
  description : String
  industry : IndustryType
  region : RegionType
  annual_revenue : Int
  ebitda : Int
  asking_price : Int
  risk_grade : RiskGrade
  status : BusinessStatus
  seller_name : String
  reason_for_sale : String
  growth_opportunities : String
  financial_data : List FinancialData
  key_metrics : KeyMetrics
  created_at : Nat
  views : Nat
  inquiries : Nat
  featured : Bool
  deriving DecidableEq

/-- The keyword-argument dictionary that get_business in server.py builds
(business.copy(), line 893) and then feeds to the response constructor.
Its seller_email entry is an Option because lines 895-912 overwrite it
with None for most callers. -/
structure ResponseData where
  id : String
  title : String
  description : String
  industry : IndustryType
  region : RegionType
  annual_revenue : Int
  ebitda : Int
  asking_price : Int
  risk_grade : RiskGrade
  status : BusinessStatus
  seller_id : String
  seller_name : String
  seller_email : Option String
  reason_for_sale : String
  growth_opportunities : String
  financial_data : List FinancialData
  key_metrics : KeyMetrics
  documents : List BusinessDocument
  created_at : Nat
  updated_at : Nat
  views : Nat
  inquiries : Nat
  featured : Bool
  email_verification_token : Option String
  deriving DecidableEq

/-- business.copy() of server.py line 893: the raw stored listing as a
keyword dictionary, seller_email still holding the stored value. -/
def responseDataOfListing (b : BusinessListing) : ResponseData :=
  { id := b.id
    title := b.title
    description := b.description
    industry := b.industry
    region := b.region
    annual_revenue := b.annual_revenue
    ebitda := b.ebitda
    asking_price := b.asking_price
    risk_grade := b.risk_grade
    status := b.status
    seller_id := b.seller_id
    seller_name := b.seller_name
    seller_email := some b.seller_email
    reason_for_sale := b.reason_for_sale
    growth_opportunities := b.growth_opportunities
    financial_data := b.financial_data
    key_metrics := b.key_metrics
    documents := b.documents
    created_at := b.created_at
    updated_at := b.updated_at
    views := b.views
    inquiries := b.inquiries
    featured := b.featured
    email_verification_token := b.email_verification_token }

/-- Construction BusinessListingResponse(**data) with the class definition
that is in effect (server.py lines 341-360).  Pydantic models ignore
unknown keyword arguments by default, so the seller_email, seller_id,
documents, updated_at and email_verification_token entries of the
dictionary are silently discarded here, exactly as at runtime. -/
def mkBusinessListingResponse (d : ResponseData) : BusinessListingResponse :=
  { id := d.id
    title := d.title
    description := d.description
    industry := d.industry
    region := d.region
    annual_revenue := d.annual_revenue
    ebitda := d.ebitda
    asking_price := d.asking_price
    risk_grade := d.risk_grade
    status := d.status
    seller_name := d.seller_name
    reason_for_sale := d.reason_for_sale
    growth_opportunities := d.growth_opportunities
    financial_data := d.financial_data
    key_metrics := d.key_metrics
    created_at := d.created_at
    views := d.views
    inquiries := d.inquiries
    featured := d.featured }

/-- Error taxonomy of the HTTPExceptions raised by server.py, keyed by
HTTP status code, carrying the detail string. -/
inductive Err where
  | notFound (detail : String)
  | badRequest (detail : String)
  | forbidden (detail : String)
  | unauthorized (detail : String)
  deriving DecidableEq

/-- Database state: the users and business_listings collections plus an
outbox recording every (address, token) pair handed to the mocked email
notifier send_verification_email. -/
structure DB where
  users : List UserResponse
  business_listings : List BusinessListing
  outbox : List (String × String)
  deriving DecidableEq

/-- Mongo update_one semantics on a collection: rewrite the first document
matching the filter, leave everything else alone. -/
def updateFirst {α : Type} (p : α → Bool) (f : α → α) : List α → List α
  | [] => []
  | b :: bs => if p b then f b :: bs else b :: updateFirst p f bs

/-- find_one({id: business_id}) on the business_listings collection. -/
def findListing (db : DB) (business_id : String) : Option BusinessListing :=
  db.business_listings.find? (fun b => b.id == business_id)

/-- The subscription check of get_business, server.py lines 901-902:
subscription_status == ACTIVE and subscription_expires_at > utcnow().
Python and-short-circuits, so the timestamp is only compared when the
status is active.  When the status is active but the expiry is missing the
source would raise a TypeError comparing None with a datetime; no reachable
user state has that shape (process_subscription_payment always stores the
two fields together), and the comparison is modelled as false. -/
def subscription_gate (u : UserResponse) (now : Nat) : Bool :=
  u.subscription_status == some SubscriptionStatus.active &&
    (match u.subscription_expires_at with
     | some t => now < t
     | none => false)

/-- The visibility branch of get_business, server.py lines 895-912: the
response dictionary with its seller_email entry rewritten according to the
caller.  The owning seller keeps the stored value (the pass branch), a
buyer passing the subscription gate has it rewritten to the stored value,
every other caller has it rewritten to None. -/
def get_business_response_data (business : BusinessListing)
    (current_user : Option UserResponse) (now : Nat) : ResponseData :=
  let base := responseDataOfListing business
  match current_user with
  | some u =>
    if u.role == UserRole.seller && business.seller_id == u.id then
      base
    else if u.role == UserRole.buyer then
      if subscription_gate u now then
        { base with seller_email := some business.seller_email }
      else
        { base with seller_email := none }
    else
      { base with seller_email := none }
  | none => { base with seller_email := none }

/-- Handler get_business of server.py lines 877-914.  Looks the listing
up; on a miss raises 404 before any write; on a hit issues the atomic
views increment and builds the response from the pre-increment document
via the shadowed response model. -/
def get_business (db : DB) (business_id : String)
    (current_user : Option UserResponse) (now : Nat) :
    DB × Except Err BusinessListingResponse :=
  match findListing db business_id with
  | none => (db, Except.error (Err.notFound "Business not found"))
  | some business =>
    let db1 : DB :=
      { db with business_listings :=
          (updateFirst (fun b => b.id == business_id)
            (fun b => { b with views := b.views + 1 }) db.business_listings) }
    (db1, Except.ok (mkBusinessListingResponse
      (get_business_response_data business current_user now)))

/-- The base dictionary business.dict() built by create_business
(server.py lines 921-927) with the server-assigned id, timestamps and
counters.  Its seller_id is a placeholder: the source dictionary has no
seller_id entry until one of the two branches of the handler writes it,
and both branches do. -/
def createdBase (business : BusinessListingCreate) (new_id : String)
    (now : Nat) : BusinessListing :=
  { id := new_id
    title := business.title
    description := business.description
    industry := business.industry
    region := business.region
    annual_revenue := business.annual_revenue
    ebitda := business.ebitda
    asking_price := business.asking_price
    risk_grade := business.risk_grade
    status := business.status
    seller_id := ""
    seller_name := business.seller_name
    seller_email := business.seller_email
    reason_for_sale := business.reason_for_sale
    growth_opportunities := business.growth_opportunities
    financial_data := business.financial_data
    key_metrics := business.key_metrics
    documents := business.documents
    created_at := now
    updated_at := now
    views := 0
    inquiries := 0
    featured := false
    email_verification_token := none }

/-- The listing stored by the anonymous branch of create_business
(server.py lines 934-941): placeholder seller id, status forced to
pending_email_verification, one-time token stored. -/
def createdAnonListing (business : BusinessListingCreate)
    (new_id new_seller_id token : String) (now : Nat) : BusinessListing :=
  { createdBase business new_id now with
      seller_id := new_seller_id
      status := BusinessStatus.pending_email_verification
      email_verification_token := some token }

/-- The listing stored by the authenticated-seller branch of
create_business (server.py lines 929-933): the seller id and email of the
caller, status forced to draft. -/
def createdSellerListing (business : BusinessListingCreate)
    (u : UserResponse) (new_id : String) (now : Nat) : BusinessListing :=
  { createdBase business new_id now with
      seller_id := u.id
      seller_email := u.email
      status := BusinessStatus.draft }

/-- Handler create_business of server.py lines 916-944.  The freshly
generated uuids (listing id and, for the anonymous branch, the placeholder
seller id), the verification token and the clock are explicit arguments. -/
def create_business (db : DB) (business : BusinessListingCreate)
    (current_user : Option UserResponse)
    (new_id new_seller_id token : String) (now : Nat) :
    DB × BusinessListingResponse :=
  let anonymousCase : DB × BusinessListingResponse :=
    let listing := createdAnonListing business new_id new_seller_id token now
    ({ db with
        business_listings := (db.business_listings ++ [listing])
        outbox := (db.outbox ++ [(business.seller_email, token)]) },
      mkBusinessListingResponse (responseDataOfListing listing))
  match current_user with
  | some u =>
    if u.role == UserRole.seller then
      let listing := createdSellerListing business u new_id now
      ({ db with business_listings := (db.business_listings ++ [listing]) },
        mkBusinessListingResponse (responseDataOfListing listing))
    else
      anonymousCase
  | none => anonymousCase

/-- Handler verify_business_email of server.py lines 946-968.  find_one
filters on both the id and the supplied token; the follow-up update_one
filters on the id alone, as in the source. -/
def verify_business_email (db : DB) (business_id token : String) (now : Nat) :
    DB × Except Err String :=
  match db.business_listings.find?
      (fun b => b.id == business_id &&
        b.email_verification_token == some token) with
  | none => (db, Except.error (Err.badRequest "Invalid verification token"))
  | some _ =>
    ({ db with business_listings :=
        (updateFirst (fun b => b.id == business_id)
          (fun b =>
            { b with
                status := BusinessStatus.pending_payment
                updated_at := now
                email_verification_token := none })
          db.business_listings) },
      Except.ok "Email verified successfully. You can now proceed with payment.")

/-- The dictionary comprehension plus updated_at assignment of
update_business, server.py lines 978-979, applied to a stored listing:
every field carried by the sparse update overwrites the stored one, every
missing field is left alone, and updated_at is refreshed. -/
def applyUpdate (u : BusinessListingUpdate) (now : Nat)
    (b : BusinessListing) : BusinessListing :=
  { b with
    title := u.title.getD b.title
    description := u.description.getD b.description
    industry := u.industry.getD b.industry
    region := u.region.getD b.region
    annual_revenue := u.annual_revenue.getD b.annual_revenue
    ebitda := u.ebitda.getD b.ebitda
    asking_price := u.asking_price.getD b.asking_price
    risk_grade := u.risk_grade.getD b.risk_grade
    seller_name := u.seller_name.getD b.seller_name
    seller_email := u.seller_email.getD b.seller_email
    reason_for_sale := u.reason_for_sale.getD b.reason_for_sale
    growth_opportunities := u.growth_opportunities.getD b.growth_opportunities
    financial_data := u.financial_data.getD b.financial_data
    key_metrics := u.key_metrics.getD b.key_metrics
    documents := u.documents.getD b.documents
    status := u.status.getD b.status
    updated_at := now }

/-- Handler update_business of server.py lines 970-987.  The route
declares NO authentication dependency: no caller identity reaches this
function, so nothing here can depend on who sent the request.  After the
write the listing is fetched again for the response; the second lookup
cannot miss because the first one hit, so its none branch is dead code
(the source would crash unpacking None there). -/
def update_business (db : DB) (business_id : String)
    (u : BusinessListingUpdate) (now : Nat) :
    DB × Except Err BusinessListingResponse :=
  match findListing db business_id with
  | none => (db, Except.error (Err.notFound "Business not found"))
  | some _ =>
    let db1 : DB :=
      { db with business_listings :=
          (updateFirst (fun b => b.id == business_id)
            (applyUpdate u now) db.business_listings) }
    match findListing db1 business_id with
    | some updated =>
      (db1, Except.ok (mkBusinessListingResponse (responseDataOfListing updated)))
    | none => (db1, Except.error (Err.notFound "Business not found"))

/-- Handler process_payment of server.py lines 994-1033.  The simulated
payment roll (random.random() compared with 0.9 in the source) enters as
the explicit success argument, the generated payment uuid and the clock as
arguments as well. -/
def process_payment (db : DB) (business_id : String)
    (payment : PaymentRequest) (success : Bool)
    (payment_id : String) (now : Nat) : DB × Except Err PaymentResponse :=
  match findListing db business_id with
  | none => (db, Except.error (Err.notFound "Business not found"))
  | some business =>
    if business.status != BusinessStatus.pending_payment &&
        business.status != BusinessStatus.draft then
      (db, Except.error (Err.badRequest "Business not ready for payment"))
    else if success then
      ({ db with business_listings :=
          (updateFirst (fun b => b.id == business_id)
            (fun b => { b with status := BusinessStatus.active, updated_at := now })
            db.business_listings) },
        Except.ok
          { payment_id := payment_id
            status := "success"
            business_id := business_id
            amount := payment.amount
            message := "Payment successful! Your business listing is now active." })
    else
      (db, Except.ok
        { payment_id := payment_id
          status := "failed"
          business_id := business_id
          amount := payment.amount
          message := "Payment failed. Please try again." })

/-- An uploaded file as the handler sees it: multipart filename, declared
content type, and the raw bytes read by file.read(). -/
structure FileUpload where
  filename : String
  content_type : String
  content : List Nat
  deriving DecidableEq

/-- The BusinessDocument record built by upload_business_document
(server.py lines 748-754) for an accepted upload. -/
def uploadedDoc (file : FileUpload) (doc_id : String) (now : Nat) :
    BusinessDocument :=
  { id := doc_id
    filename := file.filename
    original_filename := file.filename
    file_size := file.content.length
    content_type := file.content_type
    uploaded_at := now
    file_data := file.content }

/-- Handler upload_business_document of server.py lines 717-765, with its
get_current_seller dependency inlined first (FastAPI resolves dependencies
before the handler body, so a non-seller caller is rejected before
anything else).  Checks run in source order: existence, ownership, the
ten-document cap, the PDF-only content type, the 10 MiB size ceiling; all
raises happen before the single write. -/
def upload_business_document (db : DB) (business_id : String)
    (file : FileUpload) (current_user : UserResponse)
    (doc_id : String) (now : Nat) : DB × Except Err String :=
  if current_user.role != UserRole.seller then
    (db, Except.error (Err.forbidden "Seller access required"))
  else
    match findListing db business_id with
    | none => (db, Except.error (Err.notFound "Business not found"))
    | some business =>
      if business.seller_id != current_user.id then
        (db, Except.error
          (Err.forbidden "Not authorized to upload documents for this business"))
      else if business.documents.length >= 10 then
        (db, Except.error (Err.badRequest "Maximum 10 documents allowed per listing"))
      else if file.content_type != "application/pdf" then
        (db, Except.error (Err.badRequest "Only PDF files are allowed"))
      else if file.content.length > 10 * 1024 * 1024 then
        (db, Except.error (Err.badRequest "File size must be less than 10MB"))
      else
        ({ db with business_listings :=
            (updateFirst (fun b => b.id == business_id)
              (fun b =>
                { b with
                    documents := (b.documents ++ [uploadedDoc file doc_id now])
                    updated_at := now })
              db.business_listings) },
          Except.ok "Document uploaded successfully")

/-- Handler delete_business_document of server.py lines 798-821, with the
get_current_seller dependency inlined first.  The Mongo pull removes every
array element whose id matches. -/
def delete_business_document (db : DB) (business_id document_id : String)
    (current_user : UserResponse) (now : Nat) : DB × Except Err String :=
  if current_user.role != UserRole.seller then
    (db, Except.error (Err.forbidden "Seller access required"))
  else
    match findListing db business_id with
    | none => (db, Except.error (Err.notFound "Business not found"))
    | some business =>
      if business.seller_id != current_user.id then
        (db, Except.error (Err.forbidden "Not authorized"))
      else
        ({ db with business_listings :=
            (updateFirst (fun b => b.id == business_id)
              (fun b =>
                { b with
                    documents := (b.documents.filter (fun d => d.id != document_id))
                    updated_at := now })
              db.business_listings) },
          Except.ok "Document deleted successfully")

/-- Outcome of the external jwt.decode call on a bearer credential:
either a JWTError (invalid signature, malformed, or expired token) or a
decoded payload whose sub claim may be absent. -/
inductive DecodeResult where
  | invalid
  | payload (sub : Option String)
  deriving DecidableEq

/-- Dependency get_current_user_optional of server.py lines 190-206: no
credential, an undecodable or expired credential, a payload without a sub
claim, and a sub naming no stored user all resolve to None instead of
raising; only a verifiable credential of a stored user yields an identity. -/
def get_current_user_optional (db : DB) (decode : String → DecodeResult)
    (credentials : Option String) : Option UserResponse :=
  match credentials with
  | none => none
  | some cred =>
    match decode cred with
    | DecodeResult.invalid => none
    | DecodeResult.payload none => none
    | DecodeResult.payload (some user_id) =>
      db.users.find? (fun u => u.id == user_id)

/-- The full detail-fetch route: resolve the optional caller identity,
then run get_business. -/
def get_business_route (db : DB) (business_id : String)
    (decode : String → DecodeResult) (credentials : Option String)
    (now : Nat) : DB × Except Err BusinessListingResponse :=
  get_business db business_id (get_current_user_optional db decode credentials) now

/-- One externally triggered operation of the program, carrying every
external input (request payload, resolved caller, generated uuids and
tokens, the payment roll, the clock) explicitly. -/
inductive Op where
  | create (req : BusinessListingCreate) (current_user : Option UserResponse)
      (new_id new_seller_id token : String) (now : Nat)
  | verify_email (business_id token : String) (now : Nat)
  | pay (business_id : String) (payment : PaymentRequest) (success : Bool)
      (payment_id : String) (now : Nat)
  | update (business_id : String) (u : BusinessListingUpdate) (now : Nat)
  | upload_doc (business_id : String) (file : FileUpload)
      (current_user : UserResponse) (doc_id : String) (now : Nat)
  | delete_doc (business_id document_id : String)
      (current_user : UserResponse) (now : Nat)
  | fetch (business_id : String) (current_user : Option UserResponse) (now : Nat)

/-- The database after one operation (an operation that raises leaves the
database untouched). -/
def step (db : DB) : Op → DB
  | Op.create req u nid nsid tok now => (create_business db req u nid nsid tok now).1
  | Op.verify_email bid tok now => (verify_business_email db bid tok now).1
  | Op.pay bid p s pid now => (process_payment db bid p s pid now).1
  | Op.update bid u now => (update_business db bid u now).1
  | Op.upload_doc bid f u did now => (upload_business_document db bid f u did now).1
  | Op.delete_doc bid did u now => (delete_business_document db bid did u now).1
  | Op.fetch bid u now => (get_business db bid u now).1

/-- The database after a sequence of operations. -/
def run (db : DB) : List Op → DB
  | [] => db
  | op :: ops => run (step db op) ops

/-- Position of a status along the lifecycle order
draft, pending_email_verification, pending_payment, active, with the
externally triggered terminal states ranked above active. -/
def statusRank : BusinessStatus → Nat
  | BusinessStatus.draft => 0
  | BusinessStatus.pending_email_verification => 1
  | BusinessStatus.pending_payment => 2
  | BusinessStatus.active => 3
  | BusinessStatus.pending => 4
  | BusinessStatus.sold => 5
  | BusinessStatus.withdrawn => 6

/-- State invariant: a listing still carrying a verification token is
still awaiting email verification.  Every database the program builds
satisfies this: anonymous creation stores the token together with that
status, verification clears it, and no other handler writes it. -/
def tokenInvB (db : DB) : Bool :=
  db.business_listings.all
    (fun b => b.email_verification_token.isNone ||
      b.status == BusinessStatus.pending_email_verification)

/-- No duplicates in a list of strings. -/
def nodupB : List String → Bool
  | [] => true
  | x :: xs => xs.all (fun y => y != x) && nodupB xs

/-- State invariant: listing ids are pairwise distinct (they are uuids). -/
def idsUniqueB (db : DB) : Bool :=
  nodupB (db.business_listings.map (fun b => b.id))

/-- State invariant: every listing holds at most ten documents. -/
def docLeB (db : DB) : Bool :=
  db.business_listings.all (fun b => decide (b.documents.length ≤ 10))

/-- An operation is benign when it does not use the two raw overwrite
channels of the unauthenticated update route (an explicit status override
or an explicit documents list) and, for creation, the generated listing id
is fresh and the client-supplied documents list respects the cap. -/
def benignOpB (db : DB) : Op → Bool
  | Op.create req _ nid _ _ _ =>
    decide (req.documents.length ≤ 10) && (findListing db nid).isNone
  | Op.update _ u _ => u.status.isNone && u.documents.isNone
  | _ => true

/-- Every operation of the sequence is benign in the state where it runs. -/
def benignRunB (db : DB) : List Op → Bool
  | [] => true
  | op :: ops => benignOpB db op && benignRunB (step db op) ops

/-! Concrete states used to instantiate the theorems below. -/

/-- A stored active listing owned by seller s1 with stored contact email. -/
def sampleListing : BusinessListing :=
  { id := "b1"
    title := "T"
    description := "D"
    industry := IndustryType.retail
    region := RegionType.balti
    annual_revenue := 100
    ebitda := 10
    asking_price := 200
    risk_grade := RiskGrade.B
    status := BusinessStatus.active
    seller_id := "s1"
    seller_name := "S"
    seller_email := "s@x.md"
    reason_for_sale := "r"
    growth_opportunities := "g"
    financial_data := []
    key_metrics := []
    documents := []
    created_at := 0
    updated_at := 0
    views := 5
    inquiries := 0
    featured := false
    email_verification_token := none }

/-- A buyer with an active subscription expiring at time 200. -/
def subscribedBuyer : UserResponse :=
  { id := "u1"
    email := "b@x.md"
    name := "B"
    role := UserRole.buyer
    is_email_verified := true
    subscription_status := some SubscriptionStatus.active
    subscription_expires_at := some 200 }

/-- The seller who owns sampleListing. -/
def ownerSeller : UserResponse :=
  { id := "s1"
    email := "s@x.md"
    name := "S"
    role := UserRole.seller
    is_email_verified := true
    subscription_status := none
    subscription_expires_at := none }

/-- A one-listing database. -/
def sampleDB : DB :=
  { users := [subscribedBuyer, ownerSeller]
    business_listings := [sampleListing]
    outbox := [] }

/-- A sparse update carrying only a new title. -/
def titleUpd : BusinessListingUpdate := { title := some "hacked" }

/-- A sparse update carrying only an explicit status override. -/
def statusUpd : BusinessListingUpdate := { status := some BusinessStatus.draft }

/-- A listing awaiting email verification, holding its one-time token. -/
def pevListing : BusinessListing :=
  { sampleListing with
      id := "b6"
      status := BusinessStatus.pending_email_verification
      email_verification_token := some "tok6" }

/-- A database holding only pevListing. -/
def verifyDB : DB := { users := [], business_listings := [pevListing], outbox := [] }

/-- A draft listing awaiting its listing-fee payment. -/
def draftListing : BusinessListing :=
  { sampleListing with id := "b7", status := BusinessStatus.draft }

/-- A database holding only draftListing. -/
def payDB : DB := { users := [], business_listings := [draftListing], outbox := [] }

/-- A listing-fee payment request for draftListing. -/
def payReq : PaymentRequest := { business_id := "b7" }

/-- A creation request payload. -/
def createReq : BusinessListingCreate :=
  { title := "T2"
    description := "D2"
    industry := IndustryType.technology
    region := RegionType.chisinau
    annual_revenue := 1
    ebitda := 1
    asking_price := 2
    risk_grade := RiskGrade.A
    seller_name := "N"
    seller_email := "n@x.md"
    reason_for_sale := "r"
    growth_opportunities := "g"
    financial_data := []
    key_metrics := [] }

/-- An authenticated seller creating a listing. -/
def creatorSeller : UserResponse :=
  { id := "s5"
    email := "s5@x.md"
    name := "S5"
    role := UserRole.seller
    is_email_verified := true
    subscription_status := none
    subscription_expires_at := none }

/-- A small PDF upload. -/
def pdfFile : FileUpload :=
  { filename := "f.pdf", content_type := "application/pdf", content := [1, 2, 3] }

/-- Relation between the state a handler ran in and the state it left:
both state invariants still hold, the ten-document bound is preserved, and
every listing present before is still present with a status no earlier in
the lifecycle order and a view counter no smaller. -/
def GoodStep (db db' : DB) : Prop :=
  tokenInvB db' = true ∧ idsUniqueB db' = true ∧
  (docLeB db = true → docLeB db' = true) ∧
  (∀ x b, findListing db x = some b →
    ∃ b', findListing db' x = some b' ∧
      statusRank b.status ≤ statusRank b'.status ∧ b.views ≤ b'.views)

/-! Generic lemmas about the embedded Mongo operations. -/

theorem updateFirst_cons_pos {α : Type} {p : α → Bool} {f : α → α} {a : α}
    (as : List α) (ha : p a = true) :
    updateFirst p f (a :: as) = f a :: as := by
  simp [updateFirst, ha]

theorem updateFirst_cons_neg {α : Type} {p : α → Bool} {f : α → α} {a : α}
    (as : List α) (ha : ¬ p a = true) :
    updateFirst p f (a :: as) = a :: updateFirst p f as := by
  simp [updateFirst, ha]

theorem find_updateFirst_self (f : BusinessListing → BusinessListing)
    (hf : ∀ b, (f b).id = b.id) (t : String) :
    ∀ l : List BusinessListing,
      (updateFirst (fun b => b.id == t) f l).find? (fun b => b.id == t) =
        ((l.find? (fun b => b.id == t)).map f)
  | [] => rfl
  | b :: bs => by
    by_cases h : b.id = t
    · simp [updateFirst, h, List.find?_cons_of_pos, hf]
    · simp only [updateFirst, beq_iff_eq, h, if_false]
      rw [List.find?_cons_of_neg _ (by simp [h]), List.find?_cons_of_neg _ (by simp [h]),
        find_updateFirst_self f hf t bs]

theorem find_updateFirst_ne (f : BusinessListing → BusinessListing)
    (hf : ∀ b, (f b).id = b.id) (t x : String) (hxt : x ≠ t) :
    ∀ l : List BusinessListing,
      (updateFirst (fun b => b.id == t) f l).find? (fun b => b.id == x) =
        l.find? (fun b => b.id == x)
  | [] => rfl
  | b :: bs => by
    by_cases h : b.id = t
    · have hbx : ¬ (b.id = x) := fun hx => hxt (hx ▸ h ▸ rfl)
      simp only [updateFirst, beq_iff_eq, h, if_true]
      rw [List.find?_cons_of_neg _ (by simp [hf, h]; exact fun hx => hxt hx.symm),
        List.find?_cons_of_neg _ (by simp [h]; exact fun hx => hxt hx.symm)]
    · simp only [updateFirst, beq_iff_eq, h, if_false]
      by_cases hx : b.id = x
      · rw [List.find?_cons_of_pos _ (by simp [hx]), List.find?_cons_of_pos _ (by simp [hx])]
      · rw [List.find?_cons_of_neg _ (by simp [hx]), List.find?_cons_of_neg _ (by simp [hx]),
          find_updateFirst_ne f hf t x hxt bs]

theorem find_append_of_some {p : BusinessListing → Bool}
    {b : BusinessListing} (l₂ : List BusinessListing) :
    ∀ {l : List BusinessListing}, l.find? p = some b → (l ++ l₂).find? p = some b
  | [], h => by simp [List.find?] at h
  | a :: as, h => by
    by_cases ha : p a
    · rw [List.find?_cons_of_pos _ ha] at h
      rw [List.cons_append, List.find?_cons_of_pos _ ha]; exact h
    · rw [List.find?_cons_of_neg _ ha] at h
      rw [List.cons_append, List.find?_cons_of_neg _ ha]
      exact find_append_of_some l₂ h

theorem all_updateFirst_found {P p : BusinessListing → Bool}
    {f : BusinessListing → BusinessListing} :
    ∀ {l : List BusinessListing} {c : BusinessListing}, l.find? p = some c →
      l.all P = true → P (f c) = true → (updateFirst p f l).all P = true
  | [], c, h, _, _ => by simp [List.find?] at h
  | a :: as, c, h, hall, hfc => by
    simp only [List.all_cons, Bool.and_eq_true] at hall
    by_cases ha : p a
    · rw [List.find?_cons_of_pos _ ha] at h
      cases h
      rw [updateFirst_cons_pos as ha]
      simp only [List.all_cons, Bool.and_eq_true]
      exact ⟨hfc, hall.2⟩
    · rw [List.find?_cons_of_neg _ ha] at h
      rw [updateFirst_cons_neg as ha]
      simp only [List.all_cons, Bool.and_eq_true]
      exact ⟨hall.1, all_updateFirst_found h hall.2 hfc⟩

theorem map_id_updateFirst {f : BusinessListing → BusinessListing}
    (hf : ∀ b, (f b).id = b.id) (p : BusinessListing → Bool) :
    ∀ l : List BusinessListing,
      (updateFirst p f l).map (fun b => b.id) = l.map (fun b => b.id)
  | [] => rfl
  | b :: bs => by
    by_cases h : p b
    · simp [updateFirst, h, hf]
    · simp [updateFirst, h, map_id_updateFirst hf p bs]

theorem all_of_find {P p : BusinessListing → Bool} {l : List BusinessListing}
    {c : BusinessListing} (hall : l.all P = true) (hc : l.find? p = some c) :
    P c = true :=
  List.all_eq_true.mp hall c (List.mem_of_find?_eq_some hc)

theorem nodupB_append_fresh {x : String} :
    ∀ {l : List String}, nodupB l = true → l.all (fun y => y != x) = true →
      nodupB (l ++ [x]) = true
  | [], _, _ => by simp [nodupB]
  | y :: ys, h, hfr => by
    simp only [nodupB, Bool.and_eq_true] at h
    simp only [List.all_cons, Bool.and_eq_true] at hfr
    simp only [List.cons_append, nodupB, Bool.and_eq_true]
    refine ⟨?_, nodupB_append_fresh h.2 hfr.2⟩
    apply List.all_eq_true.mpr
    intro z hz
    rcases List.mem_append.mp hz with hz | hz
    · exact List.all_eq_true.mp h.1 z hz
    · have hzx : z = x := by simpa using hz
      subst hzx
      have hy : y ≠ z := by simpa [bne_iff_ne] using hfr.1
      exact bne_iff_ne.mpr (fun hzy => hy hzy.symm)

theorem eq_of_mem_id :
    ∀ {l : List BusinessListing}, nodupB (l.map (fun b => b.id)) = true →
      ∀ {a b : BusinessListing}, a ∈ l → b ∈ l → a.id = b.id → a = b
  | [], _, _, _, ha, _, _ => by cases ha
  | x :: xs, hu, a, b, ha, hb, hid => by
    simp only [List.map_cons, nodupB, Bool.and_eq_true] at hu
    have hxs : ∀ c ∈ xs, c.id ≠ x.id := by
      intro c hc
      have := List.all_eq_true.mp hu.1 c.id (List.mem_map_of_mem _ hc)
      simpa [bne_iff_ne] using this
    rcases List.mem_cons.mp ha with ha1 | ha2 <;>
      rcases List.mem_cons.mp hb with hb1 | hb2
    · exact ha1.trans hb1.symm
    · have hbx : b.id = x.id := by rw [← ha1]; exact hid.symm
      exact absurd hbx (hxs b hb2)
    · have hax : a.id = x.id := by rw [← hb1]; exact hid
      exact absurd hax (hxs a ha2)
    · exact eq_of_mem_id hu.2 ha2 hb2 hid

/-! What one program step guarantees, and a proof of it for every
handler. -/

theorem goodStep_same (db : DB) (htok : tokenInvB db = true)
    (hidu : idsUniqueB db = true) : GoodStep db db :=
  ⟨htok, hidu, fun h => h, fun _ b h => ⟨b, h, le_refl _, le_refl _⟩⟩

theorem goodStep_upd (db : DB) (t : String) (f : BusinessListing → BusinessListing)
    (hf : ∀ b, (f b).id = b.id)
    (c : BusinessListing) (hc : findListing db t = some c)
    (htok : tokenInvB db = true) (hidu : idsUniqueB db = true)
    (hftok : ((f c).email_verification_token.isNone ||
        ((f c).status == BusinessStatus.pending_email_verification)) = true)
    (hfdoc : c.documents.length ≤ 10 → (f c).documents.length ≤ 10)
    (hrank : statusRank c.status ≤ statusRank (f c).status)
    (hviews : c.views ≤ (f c).views) :
    GoodStep db { db with business_listings :=
      (updateFirst (fun b => b.id == t) f db.business_listings) } := by
  refine ⟨?_, ?_, ?_, ?_⟩
  · exact all_updateFirst_found hc htok hftok
  · show nodupB ((updateFirst (fun b => b.id == t) f
      db.business_listings).map (fun b => b.id)) = true
    rw [map_id_updateFirst hf]
    exact hidu
  · intro hdoc
    refine all_updateFirst_found hc hdoc ?_
    have hcd := of_decide_eq_true (all_of_find hdoc hc)
    exact decide_eq_true (hfdoc hcd)
  · intro x b hb
    by_cases hxt : x = t
    · subst hxt
      rw [hb] at hc
      have hcb : c = b := (Option.some.inj hc).symm
      subst hcb
      refine ⟨f c, ?_, hrank, hviews⟩
      show (updateFirst (fun b => b.id == x) f
        db.business_listings).find? (fun b => b.id == x) = some (f c)
      rw [find_updateFirst_self f hf x db.business_listings]
      rw [show db.business_listings.find? (fun b => b.id == x) = some c from hb]
      rfl
    · refine ⟨b, ?_, le_refl _, le_refl _⟩
      show (updateFirst (fun b => b.id == t) f
        db.business_listings).find? (fun b => b.id == x) = some b
      rw [find_updateFirst_ne f hf t x hxt db.business_listings]
      exact hb

theorem goodStep_append (db : DB) (n : BusinessListing) (box : List (String × String))
    (htok : tokenInvB db = true) (hidu : idsUniqueB db = true)
    (hfresh : findListing db n.id = none)
    (hntok : (n.email_verification_token.isNone ||
        (n.status == BusinessStatus.pending_email_verification)) = true)
    (hndoc : n.documents.length ≤ 10) :
    GoodStep db { db with
      business_listings := (db.business_listings ++ [n]), outbox := box } := by
  refine ⟨?_, ?_, ?_, ?_⟩
  · apply List.all_eq_true.mpr
    intro z hz
    rcases List.mem_append.mp hz with hz | hz
    · exact List.all_eq_true.mp htok z hz
    · have : z = n := by simpa using hz
      subst this
      exact hntok
  · show nodupB ((db.business_listings ++ [n]).map (fun b => b.id)) = true
    have hall : (db.business_listings.map (fun b => b.id)).all
        (fun y => y != n.id) = true := by
      apply List.all_eq_true.mpr
      intro z hz
      obtain ⟨a, ha, rfl⟩ := List.mem_map.mp hz
      have hna := (List.find?_eq_none.mp hfresh) a ha
      exact bne_iff_ne.mpr (fun he => hna (by simp [he]))
    simp only [List.map_append, List.map_cons, List.map_nil]
    exact nodupB_append_fresh hidu hall
  · intro hdoc
    apply List.all_eq_true.mpr
    intro z hz
    rcases List.mem_append.mp hz with hz | hz
    · exact List.all_eq_true.mp hdoc z hz
    · have : z = n := by simpa using hz
      subst this
      exact decide_eq_true hndoc
  · intro x b hb
    exact ⟨b, find_append_of_some [n] hb, le_refl _, le_refl _⟩

theorem fetch_good (db : DB) (bid : String) (u : Option UserResponse) (now : Nat)
    (htok : tokenInvB db = true) (hidu : idsUniqueB db = true) :
    GoodStep db (step db (Op.fetch bid u now)) := by
  show GoodStep db (get_business db bid u now).1
  unfold get_business
  cases hfind : findListing db bid with
  | none => exact goodStep_same db htok hidu
  | some c =>
    refine goodStep_upd db bid (fun b => { b with views := b.views + 1 })
      (fun b => rfl) c hfind htok hidu ?_ (fun h => h) (le_refl _) (Nat.le_succ _)
    show (c.email_verification_token.isNone ||
      (c.status == BusinessStatus.pending_email_verification)) = true
    exact all_of_find htok hfind

theorem create_good (db : DB) (req : BusinessListingCreate)
    (u : Option UserResponse) (nid nsid tok : String) (now : Nat)
    (hben : benignOpB db (Op.create req u nid nsid tok now) = true)
    (htok : tokenInvB db = true) (hidu : idsUniqueB db = true) :
    GoodStep db (step db (Op.create req u nid nsid tok now)) := by
  simp only [benignOpB, Bool.and_eq_true, Option.isNone_iff_eq_none,
    decide_eq_true_eq] at hben
  obtain ⟨hdocs, hfresh⟩ := hben
  show GoodStep db (create_business db req u nid nsid tok now).1
  unfold create_business
  cases u with
  | none =>
    exact goodStep_append db _ _ htok hidu hfresh
      (by simp [createdAnonListing, createdBase]) hdocs
  | some usr =>
    dsimp only
    split
    · exact goodStep_append db _ _ htok hidu hfresh
        (by simp [createdSellerListing, createdBase]) hdocs
    · exact goodStep_append db _ _ htok hidu hfresh
        (by simp [createdAnonListing, createdBase]) hdocs

theorem verify_good (db : DB) (bid tok : String) (now : Nat)
    (htok : tokenInvB db = true) (hidu : idsUniqueB db = true) :
    GoodStep db (step db (Op.verify_email bid tok now)) := by
  show GoodStep db (verify_business_email db bid tok now).1
  unfold verify_business_email
  cases hfind : db.business_listings.find?
      (fun b => b.id == bid && b.email_verification_token == some tok) with
  | none => exact goodStep_same db htok hidu
  | some c =>
    have hcmem := List.mem_of_find?_eq_some hfind
    have hcpred := List.find?_some hfind
    simp only [Bool.and_eq_true, beq_iff_eq] at hcpred
    have hsome : (db.business_listings.find? (fun b => b.id == bid)).isSome := by
      apply List.find?_isSome.mpr
      exact ⟨c, hcmem, by simp [hcpred.1]⟩
    obtain ⟨b0, hb0⟩ := Option.isSome_iff_exists.mp hsome
    have hb0id : b0.id = bid := by simpa using List.find?_some hb0
    have hb0mem := List.mem_of_find?_eq_some hb0
    have hcb : c = b0 := eq_of_mem_id hidu hcmem hb0mem (by rw [hcpred.1, hb0id])
    have hb0tok : b0.email_verification_token = some tok := by
      rw [← hcb]; exact hcpred.2
    have hP := all_of_find htok hb0
    have hst : b0.status = BusinessStatus.pending_email_verification := by
      simp only [hb0tok, Option.isNone_some, Bool.false_or, beq_iff_eq] at hP
      exact hP
    refine goodStep_upd db bid _ (fun b => rfl) b0 hb0 htok hidu ?_ ?_ ?_ ?_
    · simp
    · exact fun h => h
    · rw [hst]
      show statusRank BusinessStatus.pending_email_verification ≤
        statusRank BusinessStatus.pending_payment
      decide
    · exact le_refl _

theorem pay_good (db : DB) (bid : String) (payment : PaymentRequest)
    (succ : Bool) (pid : String) (now : Nat)
    (htok : tokenInvB db = true) (hidu : idsUniqueB db = true) :
    GoodStep db (step db (Op.pay bid payment succ pid now)) := by
  show GoodStep db (process_payment db bid payment succ pid now).1
  unfold process_payment
  cases hfind : findListing db bid with
  | none => exact goodStep_same db htok hidu
  | some c =>
    dsimp only
    by_cases hst : (c.status != BusinessStatus.pending_payment &&
        c.status != BusinessStatus.draft) = true
    · rw [if_pos hst]
      exact goodStep_same db htok hidu
    · rw [if_neg hst]
      cases succ with
      | false => exact goodStep_same db htok hidu
      | true =>
        have hor : c.status = BusinessStatus.pending_payment ∨
            c.status = BusinessStatus.draft := by
          by_contra hco
          push_neg at hco
          exact hst (by simp [bne_iff_ne, hco.1, hco.2])
        refine goodStep_upd db bid _ (fun b => rfl) c hfind htok hidu ?_ ?_ ?_ ?_
        · have hP := all_of_find htok hfind
          have hnone : c.email_verification_token.isNone = true := by
            rcases hor with h | h <;> simp only [h] at hP <;> simpa using hP
          show (c.email_verification_token.isNone ||
            (BusinessStatus.active == BusinessStatus.pending_email_verification)) = true
          simp [hnone]
        · exact fun h => h
        · show statusRank c.status ≤ statusRank BusinessStatus.active
          rcases hor with h | h <;> rw [h] <;> decide
        · exact le_refl _

theorem update_good (db : DB) (bid : String) (uu : BusinessListingUpdate)
    (now : Nat)
    (hben : benignOpB db (Op.update bid uu now) = true)
    (htok : tokenInvB db = true) (hidu : idsUniqueB db = true) :
    GoodStep db (step db (Op.update bid uu now)) := by
  simp only [benignOpB, Bool.and_eq_true, Option.isNone_iff_eq_none] at hben
  obtain ⟨hstn, hdocn⟩ := hben
  show GoodStep db (update_business db bid uu now).1
  cases hfind : findListing db bid with
  | none =>
    have : (update_business db bid uu now).1 = db := by
      unfold update_business
      rw [hfind]
    rw [this]
    exact goodStep_same db htok hidu
  | some c =>
    have hgs : GoodStep db { db with business_listings :=
        (updateFirst (fun b => b.id == bid) (applyUpdate uu now)
          db.business_listings) } := by
      refine goodStep_upd db bid _ (fun b => rfl) c hfind htok hidu ?_ ?_ ?_ ?_
      · have hP := all_of_find htok hfind
        simpa [applyUpdate, hstn] using hP
      · intro h
        simpa [applyUpdate, hdocn] using h
      · simp [applyUpdate, hstn]
      · exact le_refl _
    have heq : (update_business db bid uu now).1 = { db with business_listings :=
        (updateFirst (fun b => b.id == bid) (applyUpdate uu now)
          db.business_listings) } := by
      unfold update_business
      rw [hfind]
      dsimp only
      cases findListing { db with business_listings :=
        (updateFirst (fun b => b.id == bid) (applyUpdate uu now)
          db.business_listings) } bid <;> rfl
    rw [heq]
    exact hgs

theorem upload_good (db : DB) (bid : String) (file : FileUpload)
    (usr : UserResponse) (did : String) (now : Nat)
    (htok : tokenInvB db = true) (hidu : idsUniqueB db = true) :
    GoodStep db (step db (Op.upload_doc bid file usr did now)) := by
  show GoodStep db (upload_business_document db bid file usr did now).1
  unfold upload_business_document
  by_cases h1 : (usr.role != UserRole.seller) = true
  · rw [if_pos h1]
    exact goodStep_same db htok hidu
  · rw [if_neg h1]
    cases hfind : findListing db bid with
    | none => exact goodStep_same db htok hidu
    | some c =>
      dsimp only
      by_cases h2 : (c.seller_id != usr.id) = true
      · rw [if_pos h2]
        exact goodStep_same db htok hidu
      · rw [if_neg h2]
        by_cases h3 : c.documents.length ≥ 10
        · rw [if_pos h3]
          exact goodStep_same db htok hidu
        · rw [if_neg h3]
          by_cases h4 : (file.content_type != "application/pdf") = true
          · rw [if_pos h4]
            exact goodStep_same db htok hidu
          · rw [if_neg h4]
            by_cases h5 : file.content.length > 10 * 1024 * 1024
            · rw [if_pos h5]
              exact goodStep_same db htok hidu
            · rw [if_neg h5]
              refine goodStep_upd db bid _ (fun b => rfl) c hfind htok hidu ?_ ?_ ?_ ?_
              · show (c.email_verification_token.isNone ||
                  (c.status == BusinessStatus.pending_email_verification)) = true
                exact all_of_find htok hfind
              · intro _
                simp only [List.length_append, List.length_cons, List.length_nil]
                omega
              · exact le_refl _
              · exact le_refl _

theorem delete_good (db : DB) (bid did : String) (usr : UserResponse)
    (now : Nat)
    (htok : tokenInvB db = true) (hidu : idsUniqueB db = true) :
    GoodStep db (step db (Op.delete_doc bid did usr now)) := by
  show GoodStep db (delete_business_document db bid did usr now).1
  unfold delete_business_document
  by_cases h1 : (usr.role != UserRole.seller) = true
  · rw [if_pos h1]
    exact goodStep_same db htok hidu
  · rw [if_neg h1]
    cases hfind : findListing db bid with
    | none => exact goodStep_same db htok hidu
    | some c =>
      dsimp only
      by_cases h2 : (c.seller_id != usr.id) = true
      · rw [if_pos h2]
        exact goodStep_same db htok hidu
      · rw [if_neg h2]
        refine goodStep_upd db bid _ (fun b => rfl) c hfind htok hidu ?_ ?_ ?_ ?_
        · show (c.email_verification_token.isNone ||
            (c.status == BusinessStatus.pending_email_verification)) = true
          exact all_of_find htok hfind
        · intro h
          exact le_trans (List.length_filter_le _ _) h
        · exact le_refl _
        · exact le_refl _

theorem step_good (db : DB) (op : Op) (hben : benignOpB db op = true)
    (htok : tokenInvB db = true) (hidu : idsUniqueB db = true) :
    GoodStep db (step db op) := by
  cases op with
  | create req u nid nsid tok now => exact create_good db req u nid nsid tok now hben htok hidu
  | verify_email bid tok now => exact verify_good db bid tok now htok hidu
  | pay bid p s pid now => exact pay_good db bid p s pid now htok hidu
  | update bid u now => exact update_good db bid u now hben htok hidu
  | upload_doc bid f u did now => exact upload_good db bid f u did now htok hidu
  | delete_doc bid did u now => exact delete_good db bid did u now htok hidu
  | fetch bid u now => exact fetch_good db bid u now htok hidu

theorem run_good (db : DB) (ops : List Op) (hben : benignRunB db ops = true)
    (htok : tokenInvB db = true) (hidu : idsUniqueB db = true)
    (hdoc : docLeB db = true) :
    docLeB (run db ops) = true ∧
    (∀ x b, findListing db x = some b →
      ∃ b', findListing (run db ops) x = some b' ∧
        statusRank b.status ≤ statusRank b'.status ∧ b.views ≤ b'.views) := by
  induction ops generalizing db with
  | nil => exact ⟨hdoc, fun _ b h => ⟨b, h, le_refl _, le_refl _⟩⟩
  | cons op ops ih =>
    simp only [benignRunB, Bool.and_eq_true] at hben
    obtain ⟨h1, h2⟩ := hben
    obtain ⟨htok1, hidu1, hd1, hm1⟩ := step_good db op h1 htok hidu
    obtain ⟨hdoc2, hm2⟩ := ih (step db op) h2 htok1 hidu1 (hd1 hdoc)
    refine ⟨hdoc2, ?_⟩
    intro x b hb
    obtain ⟨b1, hb1, hr1, hv1⟩ := hm1 x b hb
    obtain ⟨b2, hb2, hr2, hv2⟩ := hm2 x b1 hb1
    exact ⟨b2, hb2, le_trans hr1 hr2, le_trans hv1 hv2⟩

/-! Further helper lemmas used by the claim theorems. -/

theorem find_append_none {p : BusinessListing → Bool} {l : List BusinessListing}
    (h : l.find? p = none) (l₂ : List BusinessListing) :
    (l ++ l₂).find? p = l₂.find? p := by
  induction l with
  | nil => rfl
  | cons a as ih =>
    by_cases ha : p a
    · rw [List.find?_cons_of_pos _ ha] at h
      simp at h
    · rw [List.find?_cons_of_neg _ ha] at h
      rw [List.cons_append, List.find?_cons_of_neg _ ha]
      exact ih h

theorem find_append_singleton (l : List BusinessListing) (n : BusinessListing)
    (hfresh : l.find? (fun x => x.id == n.id) = none) :
    (l ++ [n]).find? (fun x => x.id == n.id) = some n := by
  rw [find_append_none hfresh]
  rw [List.find?_cons_of_pos _ (by simp)]

theorem fetch_step_find (db : DB) (bid : String) (u : Option UserResponse)
    (now : Nat) (b : BusinessListing) (h : findListing db bid = some b) :
    findListing (step db (Op.fetch bid u now)) bid =
      some { b with views := b.views + 1 } := by
  show findListing (get_business db bid u now).1 bid = _
  unfold get_business
  rw [h]
  dsimp only
  show (updateFirst (fun x => x.id == bid)
      (fun x => { x with views := x.views + 1 }) db.business_listings).find?
      (fun x => x.id == bid) = _
  rw [find_updateFirst_self (fun x => { x with views := x.views + 1 })
    (fun _ => rfl) bid db.business_listings]
  rw [show db.business_listings.find? (fun x => x.id == bid) = some b from h]
  rfl

theorem pay_false_noop (db : DB) (bid : String) (payment : PaymentRequest)
    (pid : String) (now : Nat) :
    (process_payment db bid payment false pid now).1 = db := by
  unfold process_payment
  cases h : findListing db bid with
  | none => rfl
  | some c =>
    dsimp only
    by_cases hc : (c.status != BusinessStatus.pending_payment &&
        c.status != BusinessStatus.draft) = true
    · rw [if_pos hc]
    · rw [if_neg hc]
      rfl

theorem pay_success_pair (db : DB) (bid : String) (payment : PaymentRequest)
    (pid : String) (now : Nat) (b : BusinessListing)
    (h : findListing db bid = some b)
    (hst : b.status = BusinessStatus.draft ∨
      b.status = BusinessStatus.pending_payment) :
    process_payment db bid payment true pid now =
      ({ db with business_listings := (updateFirst (fun x => x.id == bid)
          (fun x => { x with status := BusinessStatus.active, updated_at := now })
          db.business_listings) },
        Except.ok
          { payment_id := pid
            status := "success"
            business_id := bid
            amount := payment.amount
            message := "Payment successful! Your business listing is now active." }) := by
  unfold process_payment
  rw [h]
  dsimp only
  have hcond : ¬ (b.status != BusinessStatus.pending_payment &&
      b.status != BusinessStatus.draft) = true := by
    rcases hst with h1 | h1 <;> simp [h1]
  rw [if_neg hcond]
  rfl

theorem pay_success_find (db : DB) (bid : String) (payment : PaymentRequest)
    (pid : String) (now : Nat) (b : BusinessListing)
    (h : findListing db bid = some b)
    (hst : b.status = BusinessStatus.draft ∨
      b.status = BusinessStatus.pending_payment) :
    findListing (process_payment db bid payment true pid now).1 bid =
      some { b with status := BusinessStatus.active, updated_at := now } := by
  rw [pay_success_pair db bid payment pid now b h hst]
  show (updateFirst (fun x => x.id == bid)
      (fun x => { x with status := BusinessStatus.active, updated_at := now })
      db.business_listings).find? (fun x => x.id == bid) = _
  rw [find_updateFirst_self
    (fun x => { x with status := BusinessStatus.active, updated_at := now })
    (fun _ => rfl) bid db.business_listings]
  rw [show db.business_listings.find? (fun x => x.id == bid) = some b from h]
  rfl

theorem run_append : ∀ (l1 : List Op) (db : DB) (l2 : List Op),
    run db (l1 ++ l2) = run (run db l1) l2
  | [], _, _ => rfl
  | op :: l1, db, l2 => by
    show run (step db op) (l1 ++ l2) = run (run (step db op) l1) l2
    exact run_append l1 (step db op) l2

theorem run_pay_false (bid : String) (payment : PaymentRequest) (pid : String) :
    ∀ (ns : List Nat) (db : DB),
      run db (ns.map (fun n => Op.pay bid payment false pid n)) = db
  | [], _ => rfl
  | n :: ns, db => by
    show run (step db (Op.pay bid payment false pid n))
      (ns.map (fun n => Op.pay bid payment false pid n)) = db
    rw [show step db (Op.pay bid payment false pid n) = db from
      pay_false_noop db bid payment pid n]
    exact run_pay_false bid payment pid ns db

/-! The claim theorems. -/

/-- C1: the spec claims the owning seller and a subscribed buyer receive
the stored seller contact email in the listing-detail view while every
other caller receives null.  The handler indeed computes exactly that
value into its response dictionary (conjuncts one, two and four), but the
response model in effect at run time (the duplicate class definition at
server.py lines 341-360 shadowing the one at line 300) declares no
seller_email field, so the constructor drops the entry and every caller
receives a view without any contact email: the subscribed buyer's and the
owning seller's responses are identical to the anonymous response
(conjuncts three and five).  This contradicts the claim for the owner and
for the subscribed buyer, and it contradicts the code's own comments
(server.py lines 895-903), so it is a slip in the code rather than in the
specification. -/
theorem C1_contact_email_dropped_by_shadowed_model :
    (get_business_response_data sampleListing (some subscribedBuyer) 100).seller_email
      = some "s@x.md" ∧
    (get_business_response_data sampleListing none 100).seller_email = none ∧
    get_business sampleDB "b1" (some subscribedBuyer) 100 =
      get_business sampleDB "b1" none 100 ∧
    (get_business_response_data sampleListing (some ownerSeller) 100).seller_email
      = some "s@x.md" ∧
    get_business sampleDB "b1" (some ownerSeller) 100 =
      get_business sampleDB "b1" none 100 :=
  ⟨rfl, rfl, rfl, rfl, rfl⟩

/-- C2 counterexample: the update route resolves no caller identity at all
(the handler has no authentication dependency), so an update request
carrying no ownership evidence whatsoever succeeds against a listing owned
by seller s1 and its field change is applied.  This refutes the claim that
an update is permitted only when the caller is the listing's owner. -/
theorem C2_no_ownership_check_counterexample :
    sampleListing.seller_id = "s1" ∧
    update_business sampleDB "b1" titleUpd 50 =
      ({ sampleDB with business_listings :=
          (updateFirst (fun x => x.id == "b1") (applyUpdate titleUpd 50)
            sampleDB.business_listings) },
        Except.ok (mkBusinessListingResponse (responseDataOfListing
          (applyUpdate titleUpd 50 sampleListing)))) ∧
    (findListing (update_business sampleDB "b1" titleUpd 50).1 "b1").map
      (fun x => x.title) = some "hacked" :=
  ⟨rfl, rfl, rfl⟩

/-- C2 (amended): the update route performs no authentication or ownership
check — the handler receives no caller identity, so any caller, anonymous
included, may update any existing listing.  The rest of the claim holds as
stated: exactly the fields present in the sparse update are written (each
stored field equals the supplied value when present and the old value when
absent — never a full-object overwrite), updated_at is refreshed, other
listings are untouched, and the status is unchanged unless the update
carries an explicit status override. -/
theorem C2_sparse_update (db : DB) (bid : String) (u : BusinessListingUpdate)
    (now : Nat) (b : BusinessListing) (h : findListing db bid = some b) :
    update_business db bid u now =
      ({ db with business_listings := (updateFirst (fun x => x.id == bid)
          (applyUpdate u now) db.business_listings) },
        Except.ok (mkBusinessListingResponse (responseDataOfListing
          (applyUpdate u now b)))) ∧
    findListing (update_business db bid u now).1 bid = some (applyUpdate u now b) ∧
    (∀ x, x ≠ bid →
      findListing (update_business db bid u now).1 x = findListing db x) ∧
    (applyUpdate u now b).status = u.status.getD b.status ∧
    (applyUpdate u now b).title = u.title.getD b.title ∧
    (applyUpdate u now b).description = u.description.getD b.description ∧
    (applyUpdate u now b).industry = u.industry.getD b.industry ∧
    (applyUpdate u now b).region = u.region.getD b.region ∧
    (applyUpdate u now b).annual_revenue = u.annual_revenue.getD b.annual_revenue ∧
    (applyUpdate u now b).ebitda = u.ebitda.getD b.ebitda ∧
    (applyUpdate u now b).asking_price = u.asking_price.getD b.asking_price ∧
    (applyUpdate u now b).risk_grade = u.risk_grade.getD b.risk_grade ∧
    (applyUpdate u now b).seller_name = u.seller_name.getD b.seller_name ∧
    (applyUpdate u now b).seller_email = u.seller_email.getD b.seller_email ∧
    (applyUpdate u now b).reason_for_sale = u.reason_for_sale.getD b.reason_for_sale ∧
    (applyUpdate u now b).growth_opportunities =
      u.growth_opportunities.getD b.growth_opportunities ∧
    (applyUpdate u now b).financial_data = u.financial_data.getD b.financial_data ∧
    (applyUpdate u now b).key_metrics = u.key_metrics.getD b.key_metrics ∧
    (applyUpdate u now b).documents = u.documents.getD b.documents ∧
    (applyUpdate u now b).updated_at = now ∧
    (applyUpdate u now b).id = b.id ∧
    (applyUpdate u now b).seller_id = b.seller_id ∧
    (applyUpdate u now b).views = b.views ∧
    (applyUpdate u now b).inquiries = b.inquiries ∧
    (applyUpdate u now b).email_verification_token = b.email_verification_token := by
  have hfind1 : findListing { db with business_listings :=
      (updateFirst (fun x => x.id == bid) (applyUpdate u now)
        db.business_listings) } bid = some (applyUpdate u now b) := by
    show (updateFirst (fun x => x.id == bid) (applyUpdate u now)
      db.business_listings).find? (fun x => x.id == bid) = _
    rw [find_updateFirst_self (applyUpdate u now) (fun _ => rfl) bid
      db.business_listings]
    rw [show db.business_listings.find? (fun x => x.id == bid) = some b from h]
    rfl
  have hmain : update_business db bid u now =
      ({ db with business_listings := (updateFirst (fun x => x.id == bid)
          (applyUpdate u now) db.business_listings) },
        Except.ok (mkBusinessListingResponse (responseDataOfListing
          (applyUpdate u now b)))) := by
    unfold update_business
    rw [h]
    dsimp only
    rw [hfind1]
  refine ⟨hmain, ?_, ?_, rfl, rfl, rfl, rfl, rfl, rfl, rfl, rfl, rfl, rfl, rfl,
    rfl, rfl, rfl, rfl, rfl, rfl, rfl, rfl, rfl, rfl, rfl⟩
  · rw [hmain]
    exact hfind1
  · intro x hx
    rw [hmain]
    show (updateFirst (fun y => y.id == bid) (applyUpdate u now)
      db.business_listings).find? (fun y => y.id == x) = _
    rw [find_updateFirst_ne (applyUpdate u now) (fun _ => rfl) bid x hx
      db.business_listings]
    rfl

/-- Concrete instantiation of the amended C2 theorem. -/
theorem C2_sparse_update_witness :
    findListing (update_business sampleDB "b1" titleUpd 50).1 "b1" =
      some (applyUpdate titleUpd 50 sampleListing) :=
  (C2_sparse_update sampleDB "b1" titleUpd 50 sampleListing rfl).2.1

/-- C3 counterexample: an update carrying an explicit status override
moves an active listing back to draft, so the exposed operations (which
include update) do not preserve the lifecycle order unconditionally; the
same overwrite channel also accepts an arbitrary documents list. -/
theorem C3_status_regression_counterexample :
    (findListing sampleDB "b1").map (fun x => x.status) =
      some BusinessStatus.active ∧
    (findListing (step sampleDB (Op.update "b1" statusUpd 60)) "b1").map
      (fun x => x.status) = some BusinessStatus.draft ∧
    statusRank BusinessStatus.draft < statusRank BusinessStatus.active :=
  ⟨rfl, rfl, by decide⟩

/-- C3 (amended): over every sequence of exposed operations (create,
verify_email, pay, update, document upload and delete, detail fetch) in
which no update carries an explicit status override or documents list and
every create carries a fresh id and at most ten documents, starting from a
state with pairwise-distinct listing ids in which a listing holding a
verification token is still awaiting verification and every listing holds
at most ten documents: no stored listing's status ever regresses along the
order draft, pending_email_verification, pending_payment, active; the view
counter is monotonically non-decreasing; and the document count of every
listing stays at most ten. -/
theorem C3_lifecycle_invariants (db : DB) (ops : List Op)
    (hben : benignRunB db ops = true) (htok : tokenInvB db = true)
    (hidu : idsUniqueB db = true) (hdoc : docLeB db = true) :
    (∀ x b, findListing db x = some b →
      ∃ b', findListing (run db ops) x = some b' ∧
        statusRank b.status ≤ statusRank b'.status ∧ b.views ≤ b'.views) ∧
    docLeB (run db ops) = true := by
  obtain ⟨h1, h2⟩ := run_good db ops hben htok hidu hdoc
  exact ⟨h2, h1⟩

/-- Concrete instantiation of the amended C3 theorem. -/
theorem C3_lifecycle_invariants_witness :
    docLeB (run sampleDB [Op.fetch "b1" none 1]) = true :=
  (C3_lifecycle_invariants sampleDB [Op.fetch "b1" none 1] (by decide)
    (by decide) (by decide) (by decide)).2

/-- C4: every successful detail fetch increments the stored view counter
of the fetched listing by exactly one, once per call and regardless of the
caller, so after N successful fetches the stored views equal the initial
views plus N; a fetch of a missing listing id raises NotFound and performs
no state change. -/
theorem C4_fetch_views (db : DB) (bid : String)
    (callers : List (Option UserResponse × Nat)) :
    (∀ b, findListing db bid = some b →
      ∃ b', findListing (run db (callers.map (fun c => Op.fetch bid c.1 c.2))) bid
          = some b' ∧
        b'.views = b.views + callers.length) ∧
    (∀ u now, findListing db bid = none →
      get_business db bid u now =
        (db, Except.error (Err.notFound "Business not found"))) := by
  constructor
  · induction callers generalizing db with
    | nil => exact fun b h => ⟨b, h, rfl⟩
    | cons c cs ih =>
      intro b h
      have h1 := fetch_step_find db bid c.1 c.2 b h
      obtain ⟨b', hb', hv⟩ := ih (step db (Op.fetch bid c.1 c.2)) _ h1
      refine ⟨b', hb', ?_⟩
      rw [hv]
      show (b.views + 1) + cs.length = b.views + (cs.length + 1)
      omega
  · intro u now h
    unfold get_business
    rw [h]

/-- Concrete instantiation of the C4 theorem. -/
theorem C4_fetch_views_witness :
    ∃ b', findListing (run sampleDB ([((none : Option UserResponse), 3)].map
        (fun c => Op.fetch "b1" c.1 c.2))) "b1" = some b' ∧
      b'.views = sampleListing.views + [((none : Option UserResponse), 3)].length :=
  (C4_fetch_views sampleDB "b1" [(none, 3)]).1 sampleListing rfl

/-- C5: a listing created by an anonymous caller is stored in status
pending_email_verification with a one-time token stored on it and the
(address, token) pair handed to the email notifier, and with the fresh
placeholder seller id; a listing created by an authenticated seller is
stored in status draft with the seller's id and email as owner data, no
token, and no notifier dispatch.  The client-supplied status field of the
request is quantified over, so any supplied status is overridden in both
cases. -/
theorem C5_create_initial_state :
    (∀ (db : DB) (req : BusinessListingCreate) (nid nsid tok : String) (now : Nat),
      findListing db nid = none →
        ∃ l, findListing (create_business db req none nid nsid tok now).1 nid
            = some l ∧
          l.status = BusinessStatus.pending_email_verification ∧
          l.email_verification_token = some tok ∧
          l.seller_id = nsid ∧
          (create_business db req none nid nsid tok now).1.outbox =
            db.outbox ++ [(req.seller_email, tok)]) ∧
    (∀ (db : DB) (req : BusinessListingCreate) (u : UserResponse)
        (nid nsid tok : String) (now : Nat),
      u.role = UserRole.seller →
      findListing db nid = none →
        ∃ l, findListing (create_business db req (some u) nid nsid tok now).1 nid
            = some l ∧
          l.status = BusinessStatus.draft ∧
          l.seller_id = u.id ∧
          l.seller_email = u.email ∧
          l.email_verification_token = none ∧
          (create_business db req (some u) nid nsid tok now).1.outbox =
            db.outbox) := by
  constructor
  · intro db req nid nsid tok now hfresh
    exact ⟨createdAnonListing req nid nsid tok now,
      find_append_singleton db.business_listings
        (createdAnonListing req nid nsid tok now) hfresh,
      rfl, rfl, rfl, rfl⟩
  · intro db req u nid nsid tok now hrole hfresh
    unfold create_business
    dsimp only
    rw [if_pos (show (u.role == UserRole.seller) = true by simp [hrole])]
    exact ⟨createdSellerListing req u nid now,
      find_append_singleton db.business_listings
        (createdSellerListing req u nid now) hfresh,
      rfl, rfl, rfl, rfl, rfl⟩

/-- Concrete instantiation of the C5 theorem, anonymous branch. -/
theorem C5_create_initial_state_witness :
    ∃ l, findListing (create_business sampleDB createReq none "b9" "s9" "tok9" 7).1
        "b9" = some l ∧
      l.status = BusinessStatus.pending_email_verification ∧
      l.email_verification_token = some "tok9" ∧
      l.seller_id = "s9" ∧
      (create_business sampleDB createReq none "b9" "s9" "tok9" 7).1.outbox =
        sampleDB.outbox ++ [(createReq.seller_email, "tok9")] :=
  C5_create_initial_state.1 sampleDB createReq "b9" "s9" "tok9" 7 rfl

/-- C6: for a listing awaiting email verification, verify_email succeeds
exactly when the supplied token equals the stored one-time token; on
success the status becomes pending_payment, the token is cleared and other
listings are untouched; on a non-matching token the call fails with an
error and the whole state is unchanged. -/
theorem C6_verify_email_token (db : DB) (bid tok : String) (now : Nat)
    (b : BusinessListing) (hidu : idsUniqueB db = true)
    (hb : findListing db bid = some b)
    (_hst : b.status = BusinessStatus.pending_email_verification) :
    (b.email_verification_token = some tok →
      verify_business_email db bid tok now =
        ({ db with business_listings := (updateFirst (fun x => x.id == bid)
            (fun x =>
              { x with
                  status := BusinessStatus.pending_payment
                  updated_at := now
                  email_verification_token := none })
            db.business_listings) },
          Except.ok "Email verified successfully. You can now proceed with payment.") ∧
      findListing (verify_business_email db bid tok now).1 bid =
        some { b with
          status := BusinessStatus.pending_payment
          updated_at := now
          email_verification_token := none } ∧
      (∀ x, x ≠ bid →
        findListing (verify_business_email db bid tok now).1 x = findListing db x)) ∧
    (b.email_verification_token ≠ some tok →
      verify_business_email db bid tok now =
        (db, Except.error (Err.badRequest "Invalid verification token"))) := by
  have hbid : b.id = bid := by simpa using List.find?_some hb
  have hbmem := List.mem_of_find?_eq_some hb
  constructor
  · intro htokb
    have hsome : (db.business_listings.find? (fun x => x.id == bid &&
        x.email_verification_token == some tok)).isSome := by
      apply List.find?_isSome.mpr
      exact ⟨b, hbmem, by simp [hbid, htokb]⟩
    obtain ⟨c, hc⟩ := Option.isSome_iff_exists.mp hsome
    have hmain : verify_business_email db bid tok now =
        ({ db with business_listings := (updateFirst (fun x => x.id == bid)
            (fun x =>
              { x with
                  status := BusinessStatus.pending_payment
                  updated_at := now
                  email_verification_token := none })
            db.business_listings) },
          Except.ok "Email verified successfully. You can now proceed with payment.") := by
      unfold verify_business_email
      rw [hc]
    refine ⟨hmain, ?_, ?_⟩
    · rw [hmain]
      show (updateFirst (fun x => x.id == bid)
        (fun x =>
          { x with
              status := BusinessStatus.pending_payment
              updated_at := now
              email_verification_token := none })
        db.business_listings).find? (fun x => x.id == bid) = _
      rw [find_updateFirst_self
        (fun x =>
          { x with
              status := BusinessStatus.pending_payment
              updated_at := now
              email_verification_token := none })
        (fun _ => rfl) bid db.business_listings]
      rw [show db.business_listings.find? (fun x => x.id == bid) = some b from hb]
      rfl
    · intro x hx
      rw [hmain]
      show (updateFirst (fun y => y.id == bid)
        (fun y =>
          { y with
              status := BusinessStatus.pending_payment
              updated_at := now
              email_verification_token := none })
        db.business_listings).find? (fun y => y.id == x) = _
      rw [find_updateFirst_ne
        (fun y =>
          { y with
              status := BusinessStatus.pending_payment
              updated_at := now
              email_verification_token := none })
        (fun _ => rfl) bid x hx db.business_listings]
      rfl
  · intro hne
    have hnone : db.business_listings.find? (fun x => x.id == bid &&
        x.email_verification_token == some tok) = none := by
      apply List.find?_eq_none.mpr
      intro a ha hpa
      simp only [Bool.and_eq_true, beq_iff_eq] at hpa
      have hab : a = b := eq_of_mem_id hidu ha hbmem (by rw [hpa.1, hbid])
      exact hne (by rw [← hab]; exact hpa.2)
    unfold verify_business_email
    rw [hnone]

/-- Concrete instantiation of the C6 theorem, matching-token branch. -/
theorem C6_verify_email_token_witness :
    verify_business_email verifyDB "b6" "tok6" 9 =
      ({ verifyDB with business_listings := (updateFirst (fun x => x.id == "b6")
          (fun x =>
            { x with
                status := BusinessStatus.pending_payment
                updated_at := 9
                email_verification_token := none })
          verifyDB.business_listings) },
        Except.ok "Email verified successfully. You can now proceed with payment.") :=
  ((C6_verify_email_token verifyDB "b6" "tok6" 9 pevListing (by decide)
    rfl rfl).1 rfl).1

/-- C7: the listing-fee payment is permitted only in status draft or
pending_payment, failing with an error and no state change otherwise; on a
successful simulated roll the status becomes active and updated_at is
refreshed while other listings are untouched; on a failed roll the state
is fully unchanged and the caller receives a normal response whose status
field says failed, distinguishable from success and not an error. -/
theorem C7_pay_eligibility (db : DB) (bid : String) (payment : PaymentRequest)
    (pid : String) (now : Nat) (b : BusinessListing)
    (h : findListing db bid = some b) :
    ((b.status ≠ BusinessStatus.draft ∧ b.status ≠ BusinessStatus.pending_payment) →
      ∀ succ, process_payment db bid payment succ pid now =
        (db, Except.error (Err.badRequest "Business not ready for payment"))) ∧
    ((b.status = BusinessStatus.draft ∨ b.status = BusinessStatus.pending_payment) →
      process_payment db bid payment true pid now =
        ({ db with business_listings := (updateFirst (fun x => x.id == bid)
            (fun x => { x with status := BusinessStatus.active, updated_at := now })
            db.business_listings) },
          Except.ok
            { payment_id := pid
              status := "success"
              business_id := bid
              amount := payment.amount
              message := "Payment successful! Your business listing is now active." }) ∧
      findListing (process_payment db bid payment true pid now).1 bid =
        some { b with status := BusinessStatus.active, updated_at := now } ∧
      (∀ x, x ≠ bid → findListing (process_payment db bid payment true pid now).1 x =
        findListing db x) ∧
      process_payment db bid payment false pid now =
        (db, Except.ok
          { payment_id := pid
            status := "failed"
            business_id := bid
            amount := payment.amount
            message := "Payment failed. Please try again." })) := by
  constructor
  · intro hne succ
    unfold process_payment
    rw [h]
    dsimp only
    rw [if_pos (show (b.status != BusinessStatus.pending_payment &&
        b.status != BusinessStatus.draft) = true by
      simp only [Bool.and_eq_true, bne_iff_ne, ne_eq]
      exact ⟨hne.2, hne.1⟩)]
  · intro hor
    refine ⟨pay_success_pair db bid payment pid now b h hor,
      pay_success_find db bid payment pid now b h hor, ?_, ?_⟩
    · intro x hx
      rw [pay_success_pair db bid payment pid now b h hor]
      show (updateFirst (fun y => y.id == bid)
        (fun y => { y with status := BusinessStatus.active, updated_at := now })
        db.business_listings).find? (fun y => y.id == x) = _
      rw [find_updateFirst_ne
        (fun y => { y with status := BusinessStatus.active, updated_at := now })
        (fun _ => rfl) bid x hx db.business_listings]
      rfl
    · unfold process_payment
      rw [h]
      dsimp only
      have hcond : ¬ (b.status != BusinessStatus.pending_payment &&
          b.status != BusinessStatus.draft) = true := by
        rcases hor with h1 | h1 <;> simp [h1]
      rw [if_neg hcond]
      rfl

/-- Concrete instantiation of the C7 theorem, successful-roll branch. -/
theorem C7_pay_eligibility_witness :
    process_payment payDB "b7" payReq true "p1" 11 =
      ({ payDB with business_listings := (updateFirst (fun x => x.id == "b7")
          (fun x => { x with status := BusinessStatus.active, updated_at := 11 })
          payDB.business_listings) },
        Except.ok
          { payment_id := "p1"
            status := "success"
            business_id := "b7"
            amount := payReq.amount
            message := "Payment successful! Your business listing is now active." }) :=
  ((C7_pay_eligibility payDB "b7" payReq "p1" 11 draftListing rfl).2
    (Or.inl rfl)).1

/-- C8: starting from a listing stuck below active (status draft or
pending_payment), a sequence of pay calls whose simulated rolls all fail
followed by one successful roll leaves the status exactly active, and
after every prefix of the sequence the stored status is never sold and
never withdrawn. -/
theorem C8_pay_until_success (db : DB) (bid : String) (payment : PaymentRequest)
    (pid : String) (b : BusinessListing) (fails : List Nat) (nowS : Nat)
    (h : findListing db bid = some b)
    (hst : b.status = BusinessStatus.draft ∨
      b.status = BusinessStatus.pending_payment) :
    ((findListing (run db ((fails.map (fun n => Op.pay bid payment false pid n)) ++
        [Op.pay bid payment true pid nowS])) bid).map (fun x => x.status) =
      some BusinessStatus.active) ∧
    (∀ k s, ((findListing (run db
        (((fails.map (fun n => Op.pay bid payment false pid n)) ++
          [Op.pay bid payment true pid nowS]).take k)) bid).map
        (fun x => x.status) = some s) →
      s ≠ BusinessStatus.sold ∧ s ≠ BusinessStatus.withdrawn) := by
  have hfull : findListing (run db
      ((fails.map (fun n => Op.pay bid payment false pid n)) ++
        [Op.pay bid payment true pid nowS])) bid =
      some { b with status := BusinessStatus.active, updated_at := nowS } := by
    rw [run_append]
    rw [run_pay_false bid payment pid fails db]
    show findListing (step db (Op.pay bid payment true pid nowS)) bid = _
    exact pay_success_find db bid payment pid nowS b h hst
  constructor
  · rw [hfull]
    rfl
  · intro k s hks
    by_cases hk : k ≤ (fails.map (fun n => Op.pay bid payment false pid n)).length
    · rw [List.take_append_of_le_length hk] at hks
      rw [← List.map_take] at hks
      rw [run_pay_false bid payment pid (fails.take k) db] at hks
      rw [h] at hks
      have hsb : b.status = s := by simpa using hks
      have hds : s = BusinessStatus.draft ∨ s = BusinessStatus.pending_payment := by
        rcases hst with h1 | h1
        · rw [hsb] at h1
          exact Or.inl h1
        · rw [hsb] at h1
          exact Or.inr h1
      rcases hds with h2 | h2 <;> subst h2 <;> exact ⟨by decide, by decide⟩
    · push_neg at hk
      have hlen : ((fails.map (fun n => Op.pay bid payment false pid n)) ++
          [Op.pay bid payment true pid nowS]).length ≤ k := by
        simp only [List.length_append, List.length_map, List.length_cons,
          List.length_nil]
        simp only [List.length_map] at hk
        omega
      rw [List.take_of_length_le hlen] at hks
      rw [hfull] at hks
      have hsa : s = BusinessStatus.active := by simpa using hks.symm
      subst hsa
      exact ⟨by decide, by decide⟩

/-- Concrete instantiation of the C8 theorem. -/
theorem C8_pay_until_success_witness :
    (findListing (run payDB (([1, 2].map (fun n => Op.pay "b7" payReq false "p1" n)) ++
        [Op.pay "b7" payReq true "p1" 3])) "b7").map (fun x => x.status) =
      some BusinessStatus.active :=
  (C8_pay_until_success payDB "b7" payReq "p1" draftListing [1, 2] 3 rfl
    (Or.inl rfl)).1

/-- C9: a document upload is rejected with an error and no state change
when the caller is not the owning seller (wrong role or not the owner),
when the content type is not application/pdf, when the byte size exceeds
the 10 MiB ceiling, or when the listing already holds ten (or more)
documents; in every other case it is accepted, the document is appended
(so the document count grows by exactly one), updated_at is refreshed and
nothing else changes. -/
theorem C9_upload_document (db : DB) (bid : String) (file : FileUpload)
    (usr : UserResponse) (did : String) (now : Nat) (b : BusinessListing)
    (h : findListing db bid = some b) :
    ((usr.role = UserRole.seller ∧ b.seller_id = usr.id ∧
      file.content_type = "application/pdf" ∧
      file.content.length ≤ 10 * 1024 * 1024 ∧ b.documents.length < 10) →
      upload_business_document db bid file usr did now =
        ({ db with business_listings := (updateFirst (fun x => x.id == bid)
            (fun x =>
              { x with
                  documents := (x.documents ++ [uploadedDoc file did now])
                  updated_at := now })
            db.business_listings) },
          Except.ok "Document uploaded successfully") ∧
      findListing (upload_business_document db bid file usr did now).1 bid =
        some { b with
          documents := (b.documents ++ [uploadedDoc file did now])
          updated_at := now } ∧
      (b.documents ++ [uploadedDoc file did now]).length =
        b.documents.length + 1) ∧
    ((usr.role ≠ UserRole.seller ∨ b.seller_id ≠ usr.id ∨
      file.content_type ≠ "application/pdf" ∨
      file.content.length > 10 * 1024 * 1024 ∨ b.documents.length ≥ 10) →
      ∃ e, upload_business_document db bid file usr did now =
        (db, Except.error e)) := by
  constructor
  · intro hacc
    obtain ⟨h1, h2, h3, h4, h5⟩ := hacc
    have hmain : upload_business_document db bid file usr did now =
        ({ db with business_listings := (updateFirst (fun x => x.id == bid)
            (fun x =>
              { x with
                  documents := (x.documents ++ [uploadedDoc file did now])
                  updated_at := now })
            db.business_listings) },
          Except.ok "Document uploaded successfully") := by
      unfold upload_business_document
      rw [if_neg (show ¬ (usr.role != UserRole.seller) = true by simp [h1])]
      rw [h]
      dsimp only
      rw [if_neg (show ¬ (b.seller_id != usr.id) = true by simp [h2])]
      rw [if_neg (show ¬ b.documents.length ≥ 10 by omega)]
      rw [if_neg (show ¬ (file.content_type != "application/pdf") = true by
        simp [h3])]
      rw [if_neg (show ¬ file.content.length > 10 * 1024 * 1024 by omega)]
    refine ⟨hmain, ?_, by simp⟩
    rw [hmain]
    show (updateFirst (fun x => x.id == bid)
      (fun x =>
        { x with
            documents := (x.documents ++ [uploadedDoc file did now])
            updated_at := now })
      db.business_listings).find? (fun x => x.id == bid) = _
    rw [find_updateFirst_self
      (fun x =>
        { x with
            documents := (x.documents ++ [uploadedDoc file did now])
            updated_at := now })
      (fun _ => rfl) bid db.business_listings]
    rw [show db.business_listings.find? (fun x => x.id == bid) = some b from h]
    rfl
  · intro hD
    unfold upload_business_document
    by_cases h1 : (usr.role != UserRole.seller) = true
    · rw [if_pos h1]
      exact ⟨_, rfl⟩
    · rw [if_neg h1]
      rw [h]
      dsimp only
      by_cases h2 : (b.seller_id != usr.id) = true
      · rw [if_pos h2]
        exact ⟨_, rfl⟩
      · rw [if_neg h2]
        by_cases h3 : b.documents.length ≥ 10
        · rw [if_pos h3]
          exact ⟨_, rfl⟩
        · rw [if_neg h3]
          by_cases h4 : (file.content_type != "application/pdf") = true
          · rw [if_pos h4]
            exact ⟨_, rfl⟩
          · rw [if_neg h4]
            by_cases h5 : file.content.length > 10 * 1024 * 1024
            · rw [if_pos h5]
              exact ⟨_, rfl⟩
            · exfalso
              have e1 : usr.role = UserRole.seller := by
                simpa [bne_iff_ne] using h1
              have e2 : b.seller_id = usr.id := by
                simpa [bne_iff_ne] using h2
              have e3 : file.content_type = "application/pdf" := by
                simpa [bne_iff_ne] using h4
              rcases hD with hd | hd | hd | hd | hd
              · exact hd e1
              · exact hd e2
              · exact hd e3
              · exact h5 hd
              · exact h3 hd

/-- Concrete instantiation of the C9 theorem, accepted-upload branch. -/
theorem C9_upload_document_witness :
    upload_business_document sampleDB "b1" pdfFile ownerSeller "d1" 12 =
      ({ sampleDB with business_listings := (updateFirst (fun x => x.id == "b1")
          (fun x =>
            { x with
                documents := (x.documents ++ [uploadedDoc pdfFile "d1" 12])
                updated_at := 12 })
          sampleDB.business_listings) },
        Except.ok "Document uploaded successfully") :=
  ((C9_upload_document sampleDB "b1" pdfFile ownerSeller "d1" 12 sampleListing
    rfl).1 ⟨rfl, rfl, rfl, by decide, by decide⟩).1

/-- C10: a detail fetch carrying an invalid, expired, or otherwise
unverifiable bearer credential (undecodable token, payload without a sub
claim, or sub naming no stored user) is not rejected with Unauthorized:
the pipeline resolves the caller to None, the result is identical to the
same fetch with no credential at all — the restricted projection — and on
an existing listing the call succeeds and still increments the stored view
counter by one. -/
theorem C10_invalid_credential_as_anonymous (db : DB) (bid : String)
    (decode : String → DecodeResult) (cred : String) (now : Nat)
    (h : decode cred = DecodeResult.invalid ∨
      decode cred = DecodeResult.payload none ∨
      (∃ uid, decode cred = DecodeResult.payload (some uid) ∧
        db.users.find? (fun u => u.id == uid) = none)) :
    get_business_route db bid decode (some cred) now =
      get_business_route db bid decode none now ∧
    (∀ b, findListing db bid = some b →
      ∃ db1 resp, get_business_route db bid decode (some cred) now =
        (db1, Except.ok resp) ∧
        findListing db1 bid = some { b with views := b.views + 1 }) := by
  have huser : get_current_user_optional db decode (some cred) = none := by
    unfold get_current_user_optional
    dsimp only
    rcases h with h1 | h1 | ⟨uid, h1, h2⟩
    · rw [h1]
    · rw [h1]
    · rw [h1]
      exact h2
  have hroute : get_business_route db bid decode (some cred) now =
      get_business db bid none now := by
    unfold get_business_route
    rw [huser]
  constructor
  · rw [hroute]
    rfl
  · intro b hb
    rw [hroute]
    unfold get_business
    rw [hb]
    dsimp only
    refine ⟨_, _, rfl, ?_⟩
    show (updateFirst (fun x => x.id == bid)
      (fun x => { x with views := x.views + 1 })
      db.business_listings).find? (fun x => x.id == bid) = _
    rw [find_updateFirst_self (fun x => { x with views := x.views + 1 })
      (fun _ => rfl) bid db.business_listings]
    rw [show db.business_listings.find? (fun x => x.id == bid) = some b from hb]
    rfl

/-- Concrete instantiation of the C10 theorem. -/
theorem C10_invalid_credential_witness :
    get_business_route sampleDB "b1" (fun _ => DecodeResult.invalid)
        (some "bad") 4 =
      get_business_route sampleDB "b1" (fun _ => DecodeResult.invalid) none 4 :=
  (C10_invalid_credential_as_anonymous sampleDB "b1"
    (fun _ => DecodeResult.invalid) "bad" 4 (Or.inl rfl)).1

end Bmarket
